import Mathlib

/-!
# Verification of the `clac` RPN calculator engine

Shallow embedding of the two calculator engines of the repository:

* `src/rpcalc.rs`: a generic engine over a `Number` trait, specialized to
  `i64` via the `impl Number for i64` in `src/traits.rs` (namespace `Rp`).
* `src/calc.rs`: the `Value`-based engine with integer/float promotion,
  bitwise operations, `Swap` and `SetRadix` (top-level definitions).

Machine integers (`i64`) are modelled as `Int` with explicit range checks
and two's-complement wrapping.  The IEEE-754 `f64` type cannot be modelled
faithfully here, so the `Value` engine is parametrized by an abstract float
type `F` together with its operations (`FOps`): every theorem about the
float path is proved for an arbitrary interpretation of the float
operations, which is exactly the structural content of the source (the
engine applies the float operation to the widened operands).

Stacks are lists with the head as the top of stack (`Vec::push`/`Vec::pop`
act on the end of the vector, i.e. on our head); `stack()`/`Display`
iterate bottom-to-top, i.e. over the reverse of our list.
-/

/-! ## The i64 model -/

/-- Rust's `i64::MIN`. -/
def i64_min : Int := -9223372036854775808

/-- Rust's `i64::MAX`. -/
def i64_max : Int := 9223372036854775807

/-- 2^64, the modulus of the `u64`/`i64` representation. -/
def u64_mod : Int := 18446744073709551616

/-- `x` is representable as an `i64`. -/
def inI64 (x : Int) : Prop := i64_min ≤ x ∧ x ≤ i64_max

instance (x : Int) : Decidable (inI64 x) := by
  unfold inI64; infer_instance

/-- Two's-complement wrap of an integer into the `i64` range. -/
def wrap_i64 (x : Int) : Int := (x - i64_min) % u64_mod + i64_min

/-- Reinterpret an `i64` as its `u64` (two's-complement) representative. -/
def to_u64 (x : Int) : Nat := (x % u64_mod).toNat

/-- Reinterpret a `u64` bit pattern as an `i64`. -/
def of_u64 (n : Nat) : Int := if (n : Int) ≤ i64_max then (n : Int) else (n : Int) - u64_mod

/-- Rust `i64::checked_add`. -/
def checked_add (a b : Int) : Option Int :=
  if inI64 (a + b) then some (a + b) else none

/-- Rust `i64::checked_sub`. -/
def checked_sub (a b : Int) : Option Int :=
  if inI64 (a - b) then some (a - b) else none

/-- Rust `i64::checked_mul`. -/
def checked_mul (a b : Int) : Option Int :=
  if inI64 (a * b) then some (a * b) else none

/-- Rust `i64::checked_div`: `None` on a zero divisor or on `MIN / -1`
(the only overflowing case); otherwise division truncating toward zero. -/
def checked_div (a b : Int) : Option Int :=
  if b = 0 ∨ (a = i64_min ∧ b = -1) then none else some (Int.tdiv a b)

/-- Bitwise AND on `i64` via the two's-complement representatives. -/
def i64_and (a b : Int) : Int := of_u64 (Nat.land (to_u64 a) (to_u64 b))

/-- Bitwise OR on `i64` via the two's-complement representatives. -/
def i64_or (a b : Int) : Int := of_u64 (Nat.lor (to_u64 a) (to_u64 b))

/-- Bitwise XOR on `i64` via the two's-complement representatives. -/
def i64_xor (a b : Int) : Int := of_u64 (Nat.xor (to_u64 a) (to_u64 b))

/-- Rust `!a` on `i64`: the bitwise complement, `-a - 1`. -/
def i64_not (a : Int) : Int := -a - 1

/-! ## Errors (identical enums in `src/calc.rs` and `src/rpcalc.rs`) -/

/-- `CalculatorError` from `src/calc.rs` / `src/rpcalc.rs`. -/
inductive CalculatorError where
  | StackUnderflow
  | InvalidOperation
deriving DecidableEq

/-- Rust `Option::ok_or` followed by `?`, specialized to our error type. -/
def ok_or (o : Option α) (e : CalculatorError) : Except CalculatorError α :=
  match o with
  | some v => .ok v
  | none => .error e

/-! ## The generic engine of `src/rpcalc.rs`, specialized to `i64`

The engine is generic over `T: Number`; the only impl in the repository is
`impl Number for i64` in `src/traits.rs`, so we embed that
specialization.  Note that the source implements `Number::checked_mul`
for `i64` by calling `checked_sub`. -/

namespace Rp

/-- `<i64 as Number>::checked_add` (src/traits.rs). -/
def num_checked_add (a b : Int) : Option Int := checked_add a b

/-- `<i64 as Number>::checked_sub` (src/traits.rs). -/
def num_checked_sub (a b : Int) : Option Int := checked_sub a b

/-- `<i64 as Number>::checked_mul` (src/traits.rs): the body calls
`self.checked_sub(rhs)`, not `checked_mul`. -/
def num_checked_mul (a b : Int) : Option Int := checked_sub a b

/-- `<i64 as Number>::checked_div` (src/traits.rs). -/
def num_checked_div (a b : Int) : Option Int := checked_div a b

/-- `Operation<T>` from `src/rpcalc.rs`, at `T = i64`. -/
inductive Operation where
  | Value (v : Int)
  | Add
  | Subtract
  | Multiply
  | Divide
deriving DecidableEq

/-- `Calculator::pop` (src/rpcalc.rs): the stack is a list with head on
top; on an empty stack the state is unchanged. -/
def pop (s : List Int) : Except CalculatorError Int × List Int :=
  match s with
  | [] => (.error .StackUnderflow, [])
  | v :: rest => (.ok v, rest)

/-- `Calculator::push` (src/rpcalc.rs). -/
def push (s : List Int) (v : Int) : List Int := v :: s

/-- `Calculator::do_2param_op` (src/rpcalc.rs): pops `v1` (top), then
`v2`, applies `func v2 v1` and pushes the result; on failure the state
reached so far is kept. -/
def do_2param_op (s : List Int) (func : Int → Int → Except CalculatorError Int) :
    Except CalculatorError Unit × List Int :=
  match pop s with
  | (.error e, s') => (.error e, s')
  | (.ok v1, s1) =>
    match pop s1 with
    | (.error e, s') => (.error e, s')
    | (.ok v2, s2) =>
      match func v2 v1 with
      | .error e => (.error e, s2)
      | .ok v => (.ok (), push s2 v)

/-- `Calculator::do_operation` (src/rpcalc.rs), at `T = i64`. -/
def do_operation (s : List Int) : Operation → Except CalculatorError Unit × List Int
  | .Value v => (.ok (), push s v)
  | .Add => do_2param_op s (fun a b => ok_or (num_checked_add a b) .InvalidOperation)
  | .Subtract => do_2param_op s (fun a b => ok_or (num_checked_sub a b) .InvalidOperation)
  | .Multiply => do_2param_op s (fun a b => ok_or (num_checked_mul a b) .InvalidOperation)
  | .Divide => do_2param_op s (fun a b => ok_or (num_checked_div a b) .InvalidOperation)

/-- Apply a list of operations left to right, short-circuiting on the
first failure (the REPL's `?`-propagation in `src/main.rs`). -/
def run (s : List Int) : List Operation → Except CalculatorError Unit × List Int
  | [] => (.ok (), s)
  | op :: rest =>
    match do_operation s op with
    | (.ok _, s') => run s' rest
    | (.error e, s') => (.error e, s')

end Rp

/-! ## The `Value`-based engine of `src/calc.rs`

`f64` is modelled by an abstract type `F` with an abstract interpretation
`FOps F` of the operations that the source applies to floats. -/

/-- `Radix` from `src/types.rs`.  Modelled from the spec: the enum
declaration itself is absent from the source snapshot of `types.rs`, but
its three variants are exactly the ones matched in the `Display`
implementation of `src/calc.rs` and listed in the spec (decimal,
hexadecimal, binary — display only). -/
inductive Radix where
  | Dec
  | Hex
  | Bin
deriving DecidableEq

/-- The float operations the engine applies to `f64` values, abstracted:
the arithmetic used by the float path of `Add`/`Subtract`/`Multiply`/
`Divide`, the widening `i as f64`, the truncating `f as i64`, and the
`Display` rendering. -/
structure FOps (F : Type) where
  add : F → F → F
  sub : F → F → F
  mul : F → F → F
  div : F → F → F
  of_int : Int → F
  to_int : F → Int
  to_str : F → String

/-- `Value` from `src/types.rs`. -/
inductive Value (F : Type) where
  | Integer (i : Int)
  | Float (f : F)
deriving DecidableEq

/-- `Value::is_float` (src/types.rs). -/
def Value.is_float : Value F → Bool
  | .Float _ => true
  | _ => false

/-- `Value::is_integer` (src/types.rs). -/
def Value.is_integer : Value F → Bool
  | .Integer _ => true
  | _ => false

/-- `impl From<Value> for i64` (src/types.rs): identity on integers,
truncating cast on floats. -/
def value_to_i64 (o : FOps F) : Value F → Int
  | .Integer i => i
  | .Float f => o.to_int f

/-- `impl From<Value> for f64` (src/types.rs): widening on integers,
identity on floats. -/
def value_to_f64 (o : FOps F) : Value F → F
  | .Integer i => o.of_int i
  | .Float f => f

/-- `Operation` from `src/types.rs`.  The `BitNot`, `Swap` and
`SetRadix` variants are absent from the enum declaration in the
`types.rs` snapshot but are matched in the `From<Operation>` dispatch of
`src/calc.rs` and listed in the spec's operation catalogue. -/
inductive Operation (F : Type) where
  | Push (v : Value F)
  | Add
  | Subtract
  | Multiply
  | Divide
  | BitAnd
  | BitOr
  | BitXor
  | BitNot
  | LeftShift
  | RightShift
  | Swap
  | SetRadix (r : Radix)
deriving DecidableEq

/-- The `Calculator` state of `src/calc.rs`: the value stack (head = top)
and the output radix. -/
structure Calculator (F : Type) where
  value_stack : List (Value F)
  output_radix : Radix
deriving DecidableEq

/-- `Calculator::new` (src/calc.rs). -/
def Calculator.new : Calculator F := ⟨[], .Dec⟩

/-- `Calculator::pop_mut` (src/calc.rs): `&mut self` is modelled by
returning the post-state next to the result; on an empty stack the state
is unchanged. -/
def Calculator.pop_mut (c : Calculator F) :
    Except CalculatorError (Value F) × Calculator F :=
  match c.value_stack with
  | [] => (.error .StackUnderflow, c)
  | v :: rest => (.ok v, { c with value_stack := rest })

/-- `Calculator::push_mut` (src/calc.rs). -/
def Calculator.push_mut (c : Calculator F) (v : Value F) : Calculator F :=
  { c with value_stack := v :: c.value_stack }

/-- `Calculator::set_radix` (src/calc.rs). -/
def Calculator.set_radix (c : Calculator F) (r : Radix) : Calculator F :=
  { c with output_radix := r }

/-- The blanket `impl<T: TwoParamOpImpl> OpImpl for T` (src/calc.rs):
pop `b` (top of stack), pop `a`, run `compute a b`, push the result.  A
failure keeps whatever the state is at that point (consumed operands are
not restored). -/
def two_param_execute (compute : Value F → Value F → Except CalculatorError (Value F))
    (c : Calculator F) : Option CalculatorError × Calculator F :=
  match c.pop_mut with
  | (.error e, c') => (some e, c')
  | (.ok b, c1) =>
    match c1.pop_mut with
    | (.error e, c') => (some e, c')
    | (.ok a, c2) =>
      match compute a b with
      | .error e => (some e, c2)
      | .ok v => (none, c2.push_mut v)

/-- `TwoParamFloatPromoOpImpl::compute` (src/calc.rs): the float path is
taken whenever either operand `is_float`, after widening both; otherwise
both operands are converted to `i64` and the integer path runs. -/
def float_promo_compute (o : FOps F)
    (int_op : Int → Int → Except CalculatorError (Value F))
    (float_op : F → F → Except CalculatorError (Value F))
    (a b : Value F) : Except CalculatorError (Value F) :=
  if a.is_float || b.is_float then
    float_op (value_to_f64 o a) (value_to_f64 o b)
  else
    int_op (value_to_i64 o a) (value_to_i64 o b)

/-- `TwoParamIntPromoOpImpl::compute` (src/calc.rs): both operands are
forced to `i64`. -/
def int_promo_compute (o : FOps F)
    (int_op : Int → Int → Except CalculatorError (Value F))
    (a b : Value F) : Except CalculatorError (Value F) :=
  int_op (value_to_i64 o a) (value_to_i64 o b)

/-- `SwapImpl::execute` (src/calc.rs): pop `a`, pop `b`, push `a`, push
`b`.  If the second pop fails the first popped value is not restored. -/
def swap_execute (c : Calculator F) : Option CalculatorError × Calculator F :=
  match c.pop_mut with
  | (.error e, c') => (some e, c')
  | (.ok a, c1) =>
    match c1.pop_mut with
    | (.error e, c') => (some e, c')
    | (.ok b, c2) => (none, (c2.push_mut a).push_mut b)

/-- `BitNotImpl::execute` (src/calc.rs): pop, force to `i64`, push the
bitwise complement. -/
def bit_not_execute (o : FOps F) (c : Calculator F) :
    Option CalculatorError × Calculator F :=
  match c.pop_mut with
  | (.error e, c') => (some e, c')
  | (.ok v, c1) => (none, c1.push_mut (.Integer (i64_not (value_to_i64 o v))))

/-- The `LeftShift` integer arm (src/calc.rs): `b.try_into::<u32>()`
fails outside `[0, u32::MAX]`, then `checked_shl` fails for shift
amounts `≥ 64`; a successful shift multiplies by `2^b` with
two's-complement wrapping. -/
def shl_int_op (a b : Int) : Except CalculatorError (Value F) :=
  if 0 ≤ b ∧ b < 4294967296 then
    if b.toNat < 64 then
      .ok (.Integer (wrap_i64 (a * 2 ^ b.toNat)))
    else
      .error .InvalidOperation
  else
    .error .InvalidOperation

/-- The `RightShift` integer arm (src/calc.rs): same range checks as
`LeftShift`; a successful arithmetic right shift is floor division by
`2^b`. -/
def shr_int_op (a b : Int) : Except CalculatorError (Value F) :=
  if 0 ≤ b ∧ b < 4294967296 then
    if b.toNat < 64 then
      .ok (.Integer (Int.fdiv a (2 ^ b.toNat)))
    else
      .error .InvalidOperation
  else
    .error .InvalidOperation

/-- `Calculator::apply_mut` (src/calc.rs): dispatch through the
`From<Operation> for Box<dyn OpImpl>` table and execute.  The closures
of each arm are inlined from the source. -/
def Calculator.apply_mut (o : FOps F) (c : Calculator F) :
    Operation F → Option CalculatorError × Calculator F
  | .Push v => (none, c.push_mut v)
  | .Add =>
    two_param_execute (float_promo_compute o
      (fun a b => (ok_or (checked_add a b) .InvalidOperation).map .Integer)
      (fun a b => .ok (.Float (o.add a b)))) c
  | .Subtract =>
    two_param_execute (float_promo_compute o
      (fun a b => (ok_or (checked_sub a b) .InvalidOperation).map .Integer)
      (fun a b => .ok (.Float (o.sub a b)))) c
  | .Multiply =>
    two_param_execute (float_promo_compute o
      (fun a b => (ok_or (checked_mul a b) .InvalidOperation).map .Integer)
      (fun a b => .ok (.Float (o.mul a b)))) c
  | .Divide =>
    two_param_execute (float_promo_compute o
      (fun a b => (ok_or (checked_div a b) .InvalidOperation).map .Integer)
      (fun a b => .ok (.Float (o.div a b)))) c
  | .BitAnd =>
    two_param_execute (int_promo_compute o
      (fun a b => .ok (.Integer (i64_and a b)))) c
  | .BitOr =>
    two_param_execute (int_promo_compute o
      (fun a b => .ok (.Integer (i64_or a b)))) c
  | .BitXor =>
    two_param_execute (int_promo_compute o
      (fun a b => .ok (.Integer (i64_xor a b)))) c
  | .BitNot => bit_not_execute o c
  | .LeftShift => two_param_execute (int_promo_compute o shl_int_op) c
  | .RightShift => two_param_execute (int_promo_compute o shr_int_op) c
  | .Swap => swap_execute c
  | .SetRadix r => (none, c.set_radix r)

/-- `Calculator::apply` (src/calc.rs): clone, `apply_mut` on the clone,
return the clone on success and drop it on failure. -/
def Calculator.apply (o : FOps F) (c : Calculator F) (op : Operation F) :
    Except CalculatorError (Calculator F) :=
  match c.apply_mut o op with
  | (none, c') => .ok c'
  | (some e, _) => .error e

/-- In-place application of a whole operation sequence, short-circuiting
on the first failure and keeping the partially mutated state. -/
def apply_mut_seq (o : FOps F) :
    Calculator F → List (Operation F) → Option CalculatorError × Calculator F
  | c, [] => (none, c)
  | c, op :: rest =>
    match c.apply_mut o op with
    | (none, c') => apply_mut_seq o c' rest
    | (some e, c') => (some e, c')

/-- Copy-mode application of a whole operation sequence through
`Calculator::apply`, short-circuiting on the first failure. -/
def apply_seq (o : FOps F) :
    Calculator F → List (Operation F) → Except CalculatorError (Calculator F)
  | c, [] => .ok c
  | c, op :: rest =>
    match c.apply o op with
    | .ok c' => apply_seq o c' rest
    | .error e => .error e

/-- Modelled from the spec: the state a copy-then-mutate caller is left
with after a whole sequence — the new calculator on success, the
original, untouched calculator on failure (spec §5: "the first failing
operation aborts the sequence and the original (pre-line) state is what
the caller retains"). -/
def copy_mode_result (o : FOps F) (c : Calculator F) (ops : List (Operation F)) :
    Calculator F :=
  match apply_seq o c ops with
  | .ok c' => c'
  | .error _ => c

/-! ## Display (src/calc.rs `impl Display for Calculator`) -/

/-- Rendering of one integer per the output radix: `format!("{}", i)`,
`format!("{:#x}", i)`, `format!("{:#b}", i)`; the latter two print the
two's-complement `u64` bit pattern in lowercase with a `0x`/`0b`
prefix. -/
def render_int (r : Radix) (i : Int) : String :=
  match r with
  | .Dec => toString i
  | .Hex => "0x" ++ String.mk (Nat.toDigits 16 (to_u64 i))
  | .Bin => "0b" ++ String.mk (Nat.toDigits 2 (to_u64 i))

/-- Rendering of one stack value (src/calc.rs, `Display`). -/
def render_value (o : FOps F) (r : Radix) : Value F → String
  | .Integer i => render_int r i
  | .Float f => o.to_str f

/-- `impl Display for Calculator` (src/calc.rs): the stack rendered
bottom-to-top, space-separated. -/
def Calculator.display (o : FOps F) (c : Calculator F) : String :=
  String.intercalate " " (c.value_stack.reverse.map (render_value o c.output_radix))

/-- A concrete interpretation of the float operations, used to
instantiate the parametric theorems at concrete inputs. -/
def int_fops : FOps Int where
  add := fun a b => a + b
  sub := fun a b => a - b
  mul := fun a b => a * b
  div := fun a b => Int.tdiv a b
  of_int := fun i => i
  to_int := fun f => f
  to_str := fun f => toString f

/-! ## Helper lemmas -/

/-- The shift-range checks of the `LeftShift` arm collapse to the single
condition `0 ≤ b ∧ b ≤ 63`. -/
theorem shl_int_op_eq (a b : Int) :
    shl_int_op (F := F) a b =
      if 0 ≤ b ∧ b ≤ 63 then
        .ok (.Integer (wrap_i64 (a * 2 ^ b.toNat)))
      else
        .error .InvalidOperation := by
  unfold shl_int_op
  by_cases h : 0 ≤ b ∧ b ≤ 63
  · have h1 : 0 ≤ b ∧ b < 4294967296 := ⟨h.1, by omega⟩
    have h2 : b.toNat < 64 := by omega
    simp [h, h1, h2]
  · by_cases h1 : 0 ≤ b ∧ b < 4294967296
    · have h2 : ¬ b.toNat < 64 := by omega
      have h3 : ¬ b ≤ 63 := by omega
      simp [h, h1, h2, h3]
    · simp [h, h1]

/-- The shift-range checks of the `RightShift` arm collapse to the single
condition `0 ≤ b ∧ b ≤ 63`. -/
theorem shr_int_op_eq (a b : Int) :
    shr_int_op (F := F) a b =
      if 0 ≤ b ∧ b ≤ 63 then
        .ok (.Integer (Int.fdiv a (2 ^ b.toNat)))
      else
        .error .InvalidOperation := by
  unfold shr_int_op
  by_cases h : 0 ≤ b ∧ b ≤ 63
  · have h1 : 0 ≤ b ∧ b < 4294967296 := ⟨h.1, by omega⟩
    have h2 : b.toNat < 64 := by omega
    simp [h, h1, h2]
  · by_cases h1 : 0 ≤ b ∧ b < 4294967296
    · have h2 : ¬ b.toNat < 64 := by omega
      have h3 : ¬ b ≤ 63 := by omega
      simp [h, h1, h2, h3]
    · simp [h, h1]

/-! ## Claim theorems -/

/-- C1: the claim says the generic engine specialized to `i64` pushes the
overflow-checked product on `Multiply`.  The code does not: the
`Number::checked_mul` impl for `i64` in `src/traits.rs` calls
`checked_sub`, so pushing `2` then `3` and multiplying yields `-1`
instead of `6`, and a genuinely overflowing product such as
`2^62 * 2` succeeds with the difference `2^62 - 2` instead of failing
with `InvalidOperation`. -/
theorem c1_generic_multiply_computes_subtraction :
    Rp.run [] [.Value 2, .Value 3, .Multiply] = (.ok (), [-1]) ∧
    Rp.run [] [.Value 4611686018427387904, .Value 2, .Multiply] =
      (.ok (), [4611686018427387902]) :=
  ⟨rfl, rfl⟩

/-- C2 (counterexample): the claim states that the in-place mode and the
copy-then-mutate mode produce identical stack contents for every
operation sequence.  On the one-element stack `[Integer 1]` the sequence
`[Swap]` fails after consuming the single element: the in-place mode is
left with an empty stack while the copy mode's caller retains the
original one-element stack. -/
theorem c2_modes_differ_on_failure :
    ¬ ((apply_mut_seq int_fops ⟨[Value.Integer 1], .Dec⟩ [Operation.Swap]).2.value_stack =
       (copy_mode_result int_fops ⟨[Value.Integer 1], .Dec⟩ [Operation.Swap]).value_stack) := by
  decide

/-- C2 (amended): the two modes agree on the success/failure verdict and
on the error, and whenever the sequence succeeds they produce the same
final calculator (hence identical stack contents); only the state kept
after a failure differs. -/
theorem c2_modes_agree_on_success {F : Type} (o : FOps F) (c : Calculator F)
    (l : List (Operation F)) :
    apply_seq o c l =
      (match apply_mut_seq o c l with
       | (none, c') => Except.ok c'
       | (some e, _) => Except.error e) := by
  induction l generalizing c with
  | nil => rfl
  | cons op rest ih =>
    simp only [apply_seq, apply_mut_seq, Calculator.apply]
    cases h : c.apply_mut o op with
    | mk e c' => cases e <;> simp [h, ih]

/-- C3: with two `Integer` operands (`a` pushed first, `b` on top),
`Add`/`Subtract`/`Multiply` push the checked 64-bit sum/difference/
product and fail with `InvalidOperation` on overflow; `Divide` pushes
the truncated quotient and fails with `InvalidOperation` on a zero
divisor or on the overflowing `MIN / -1`; every failure leaves exactly
the original stack minus the two consumed operands.  In particular
`[Push 5, Push 0, Divide]` on an empty calculator fails with
`InvalidOperation` and ends with an empty stack. -/
theorem c3_integer_arithmetic {F : Type} (o : FOps F) (a b : Int)
    (s : List (Value F)) (r : Radix) :
    (Calculator.apply_mut o ⟨.Integer b :: .Integer a :: s, r⟩ .Add =
      if inI64 (a + b) then (none, ⟨.Integer (a + b) :: s, r⟩)
      else (some .InvalidOperation, ⟨s, r⟩)) ∧
    (Calculator.apply_mut o ⟨.Integer b :: .Integer a :: s, r⟩ .Subtract =
      if inI64 (a - b) then (none, ⟨.Integer (a - b) :: s, r⟩)
      else (some .InvalidOperation, ⟨s, r⟩)) ∧
    (Calculator.apply_mut o ⟨.Integer b :: .Integer a :: s, r⟩ .Multiply =
      if inI64 (a * b) then (none, ⟨.Integer (a * b) :: s, r⟩)
      else (some .InvalidOperation, ⟨s, r⟩)) ∧
    (Calculator.apply_mut o ⟨.Integer b :: .Integer a :: s, r⟩ .Divide =
      if b = 0 ∨ (a = i64_min ∧ b = -1) then (some .InvalidOperation, ⟨s, r⟩)
      else (none, ⟨.Integer (Int.tdiv a b) :: s, r⟩)) ∧
    apply_mut_seq o ⟨[], r⟩ [.Push (.Integer 5), .Push (.Integer 0), .Divide] =
      (some .InvalidOperation, ⟨[], r⟩) := by
  refine ⟨?_, ?_, ?_, ?_, rfl⟩
  · by_cases h : inI64 (a + b) <;>
      simp [Calculator.apply_mut, two_param_execute, Calculator.pop_mut,
        float_promo_compute, Value.is_float, value_to_i64, checked_add, ok_or, Except.map, h,
        Calculator.push_mut]
  · by_cases h : inI64 (a - b) <;>
      simp [Calculator.apply_mut, two_param_execute, Calculator.pop_mut,
        float_promo_compute, Value.is_float, value_to_i64, checked_sub, ok_or, Except.map, h,
        Calculator.push_mut]
  · by_cases h : inI64 (a * b) <;>
      simp [Calculator.apply_mut, two_param_execute, Calculator.pop_mut,
        float_promo_compute, Value.is_float, value_to_i64, checked_mul, ok_or, Except.map, h,
        Calculator.push_mut]
  · by_cases h : b = 0 ∨ (a = i64_min ∧ b = -1) <;>
      simp [Calculator.apply_mut, two_param_execute, Calculator.pop_mut,
        float_promo_compute, Value.is_float, value_to_i64, checked_div, ok_or, Except.map, h,
        Calculator.push_mut]

/-- C4: whenever at least one of the two operands is a `Float`,
`Add`/`Subtract`/`Multiply`/`Divide` push the `Float` obtained by
applying the float operation to both operands widened to floats (`x`
pushed first is the left operand, `y` on top the right one), and the
promotion decision is symmetric in the two operands. -/
theorem c4_float_promotion {F : Type} (o : FOps F) (x y : Value F)
    (s : List (Value F)) (r : Radix) (h : (x.is_float || y.is_float) = true) :
    (Calculator.apply_mut o ⟨y :: x :: s, r⟩ .Add =
      (none, ⟨.Float (o.add (value_to_f64 o x) (value_to_f64 o y)) :: s, r⟩)) ∧
    (Calculator.apply_mut o ⟨y :: x :: s, r⟩ .Subtract =
      (none, ⟨.Float (o.sub (value_to_f64 o x) (value_to_f64 o y)) :: s, r⟩)) ∧
    (Calculator.apply_mut o ⟨y :: x :: s, r⟩ .Multiply =
      (none, ⟨.Float (o.mul (value_to_f64 o x) (value_to_f64 o y)) :: s, r⟩)) ∧
    (Calculator.apply_mut o ⟨y :: x :: s, r⟩ .Divide =
      (none, ⟨.Float (o.div (value_to_f64 o x) (value_to_f64 o y)) :: s, r⟩)) ∧
    (∀ u v : Value F, (u.is_float || v.is_float) = (v.is_float || u.is_float)) := by
  refine ⟨?_, ?_, ?_, ?_, fun u v => Bool.or_comm _ _⟩ <;>
    simp [Calculator.apply_mut, two_param_execute, Calculator.pop_mut,
      float_promo_compute, h, Calculator.push_mut]

/-- C4 witness: `1 + 2.0` takes the float path and pushes `Float 3` in
the concrete integer interpretation of the float operations. -/
theorem c4_float_promotion_witness :
    ((Value.Integer (F := Int) 1).is_float || (Value.Float (2 : Int)).is_float) = true ∧
    Calculator.apply_mut int_fops ⟨[Value.Float 2, Value.Integer 1], .Dec⟩ .Add =
      (none, ⟨[Value.Float 3], .Dec⟩) := by
  refine ⟨rfl, ?_⟩
  have h := (c4_float_promotion int_fops (Value.Integer 1) (Value.Float 2) [] .Dec rfl).1
  simpa [int_fops, value_to_f64] using h

/-- C5: with the two operands forced to `i64` (value `a` from the first
pushed operand, shift amount `b` from the top one), `LeftShift` and
`RightShift` fail with `InvalidOperation` exactly when `b` is outside
`[0, 63]`, and otherwise push the shifted integer: the two's-complement
wrap of `a * 2^b` for the left shift, the floor division `a / 2^b`
(arithmetic shift) for the right shift. -/
theorem c5_shift_range {F : Type} (o : FOps F) (x y : Value F)
    (s : List (Value F)) (r : Radix) :
    (Calculator.apply_mut o ⟨y :: x :: s, r⟩ .LeftShift =
      if 0 ≤ value_to_i64 o y ∧ value_to_i64 o y ≤ 63 then
        (none, ⟨.Integer (wrap_i64 (value_to_i64 o x * 2 ^ (value_to_i64 o y).toNat)) :: s, r⟩)
      else (some .InvalidOperation, ⟨s, r⟩)) ∧
    (Calculator.apply_mut o ⟨y :: x :: s, r⟩ .RightShift =
      if 0 ≤ value_to_i64 o y ∧ value_to_i64 o y ≤ 63 then
        (none, ⟨.Integer (Int.fdiv (value_to_i64 o x) (2 ^ (value_to_i64 o y).toNat)) :: s, r⟩)
      else (some .InvalidOperation, ⟨s, r⟩)) := by
  constructor <;>
    by_cases h : 0 ≤ value_to_i64 o y ∧ value_to_i64 o y ≤ 63 <;>
      simp [Calculator.apply_mut, two_param_execute, Calculator.pop_mut,
        int_promo_compute, shl_int_op_eq, shr_int_op_eq, h, Calculator.push_mut]

/-- C6: whenever at least one operand is a `Float`, `Divide` never
fails: it pushes the `Float` quotient of the widened operands for every
divisor, including a zero one; the `InvalidOperation` failure of
division exists only on the all-`Integer` path. -/
theorem c6_float_divide_never_fails {F : Type} (o : FOps F) (x y : Value F)
    (s : List (Value F)) (r : Radix) (h : (x.is_float || y.is_float) = true) :
    Calculator.apply_mut o ⟨y :: x :: s, r⟩ .Divide =
      (none, ⟨.Float (o.div (value_to_f64 o x) (value_to_f64 o y)) :: s, r⟩) := by
  simp [Calculator.apply_mut, two_param_execute, Calculator.pop_mut,
    float_promo_compute, h, Calculator.push_mut]

/-- C6 witness: `5 / 0.0` takes the float path and succeeds with a
`Float` result in the concrete integer interpretation of the float
operations; nothing fails on a zero float divisor. -/
theorem c6_float_divide_never_fails_witness :
    ((Value.Integer (F := Int) 5).is_float || (Value.Float (0 : Int)).is_float) = true ∧
    Calculator.apply_mut int_fops ⟨[Value.Float 0, Value.Integer 5], .Dec⟩ .Divide =
      (none, ⟨[Value.Float 0], .Dec⟩) := by
  refine ⟨rfl, ?_⟩
  have h := c6_float_divide_never_fails int_fops (Value.Integer 5) (Value.Float 0) [] .Dec rfl
  simpa [int_fops, value_to_f64] using h

/-- C7: on a calculator holding exactly one value, `Swap` fails with
`StackUnderflow` and the resulting stack is empty: the single element
is consumed by the first pop and not restored. -/
theorem c7_swap_underflow_consumes {F : Type} (o : FOps F) (v : Value F) (r : Radix) :
    Calculator.apply_mut o ⟨[v], r⟩ .Swap = (some .StackUnderflow, ⟨[], r⟩) :=
  rfl

/-- C8: on a stack holding at least two values (`y` on top of `x`), one
`Swap` succeeds and exactly reverses the top two values, leaving the
rest of the stack and the radix unchanged, and two `Swap`s restore the
original calculator. -/
theorem c8_swap_involution {F : Type} (o : FOps F) (x y : Value F)
    (s : List (Value F)) (r : Radix) :
    Calculator.apply_mut o ⟨y :: x :: s, r⟩ .Swap = (none, ⟨x :: y :: s, r⟩) ∧
    apply_mut_seq o ⟨y :: x :: s, r⟩ [.Swap, .Swap] = (none, ⟨y :: x :: s, r⟩) :=
  ⟨rfl, rfl⟩

/-- C9: popping from an empty stack fails with `StackUnderflow` and
leaves the state exactly unchanged, in both the `Value` engine
(`Calculator::pop_mut` of src/calc.rs) and the generic engine
(`Calculator::pop` of src/rpcalc.rs). -/
theorem c9_pop_empty_underflow {F : Type} (r : Radix) :
    Calculator.pop_mut (⟨[], r⟩ : Calculator F) = (.error .StackUnderflow, ⟨[], r⟩) ∧
    Rp.pop [] = (.error .StackUnderflow, []) :=
  ⟨rfl, rfl⟩

/-- C10: `SetRadix r` always succeeds and leaves the value stack exactly
unchanged, only updating the display radix; applying `SetRadix Hex`
then `SetRadix Dec` to a decimal calculator restores both the state and
the rendered display; the rendering of an integer is decimal without a
prefix under `Dec`, hexadecimal with a `0x` prefix under `Hex`, binary
with a `0b` prefix under `Bin` (e.g. `255` renders as `"255"`,
`"0xff"`, `"0b11111111"`). -/
theorem c10_set_radix_frame {F : Type} (o : FOps F) :
    (∀ (c : Calculator F) (r : Radix),
      c.apply_mut o (.SetRadix r) = (none, ⟨c.value_stack, r⟩)) ∧
    (∀ s : List (Value F),
      apply_mut_seq o ⟨s, .Dec⟩ [.SetRadix .Hex, .SetRadix .Dec] = (none, ⟨s, .Dec⟩)) ∧
    (∀ s : List (Value F),
      Calculator.display o (apply_mut_seq o ⟨s, .Dec⟩ [.SetRadix .Hex, .SetRadix .Dec]).2 =
        Calculator.display o ⟨s, .Dec⟩) ∧
    render_int .Dec 255 = "255" ∧
    render_int .Hex 255 = "0xff" ∧
    render_int .Bin 255 = "0b11111111" :=
  ⟨fun _ _ => rfl, fun _ => rfl, fun _ => rfl, rfl, rfl, rfl⟩
